import Mathlib

/-!
Verification of the frame codec and buffered connection of the mini-redis
fork (src/frame.rs, src/connection.rs).

Bytes are modelled as `List Nat` (each entry a `u8` value), borrowed slices
`&[u8]` as sub-lists obtained with `List.drop`/`List.take`, and fallible Rust
functions returning `Result<_, FrameError>` as `Except FrameError _`.
-/

set_option maxRecDepth 100000

mutual
/-- Embeds `enum Frame` (frame.rs:10). -/
inductive Frame where
  | Simple (b : List Nat)
  | Error (b : List Nat)
  | Integer (i : Int)
  | Bulk (b : List Nat)
  | Null
  | Array (xs : FrameArray)
deriving Repr, DecidableEq

/-- Embeds `struct FrameArray` (frame.rs:32), the wrapper around
`Vec<Frame>`, given here as its own list-like inductive (mutual with
`Frame`, exactly as the Rust types are mutually recursive). -/
inductive FrameArray where
  | nil
  | cons (f : Frame) (fs : FrameArray)
deriving Repr, DecidableEq
end

/-- Embeds `FrameArray::from_vec` (frame.rs:44): builds a `FrameArray` from
a list of frames. -/
def FrameArray.from_vec : List Frame → FrameArray
  | [] => .nil
  | f :: fs => .cons f (FrameArray.from_vec fs)

/-- Embeds `FrameArray::len` (frame.rs:56): the element count. -/
def FrameArray.len : FrameArray → Nat
  | .nil => 0
  | .cons _ fs => FrameArray.len fs + 1

/-- Embeds `enum FrameError` (frame.rs:87). -/
inductive FrameError where
  | Incomplete
  | InvalidInteger
  | BadFormat
deriving Repr, DecidableEq

/-- Digit test on an ASCII byte, used by the model of the `atoi` crate. -/
def isAsciiDigit (c : Nat) : Bool := 48 ≤ c && c ≤ 57

/-- Decimal value of a digit string (left fold, as the checked accumulation
of the `atoi` crate computes it). -/
def digitsToNat (l : List Nat) : Nat := l.foldl (fun acc c => acc * 10 + (c - 48)) 0

/-- Magnitude part of `atoi::<i64>`: requires a non-empty all-digit slice and
a value within `bound` (the crate accumulates with checked i64 arithmetic, so
any overflow yields `None`; for digit strings this is equivalent to a bound
check on the final value). -/
def atoiMag (digits : List Nat) (bound : Nat) : Option Nat :=
  if digits ≠ [] ∧ digits.all isAsciiDigit = true then
    if digitsToNat digits ≤ bound then some (digitsToNat digits) else none
  else none

/-- Embeds `atoi::atoi::<i64>` from the `atoi` crate (dependency of
frame.rs): an optional sign followed by at least one digit, the whole slice
consumed exactly — any trailing or embedded non-digit byte yields `None` —
with i64 range checking. -/
def atoi_i64 : List Nat → Option Int
  | [] => none
  | 43 :: rest => (atoiMag rest (2 ^ 63 - 1)).map (fun v => (v : Int))
  | 45 :: rest => (atoiMag rest (2 ^ 63)).map (fun v => -(v : Int))
  | text => (atoiMag text (2 ^ 63 - 1)).map (fun v => (v : Int))

/-- Embeds `peek_u8_at` (frame.rs:254): the byte at index `at_`, or
`Incomplete` when the index is out of range. -/
def peek_u8_at (src : List Nat) (at_ : Nat) : Except FrameError Nat :=
  match src.drop at_ with
  | c :: _ => .ok c
  | [] => .error .Incomplete

/-- Embeds `get_bytes_from` (frame.rs:262): the suffix starting at `at_`,
failing `Incomplete` when `at_ >= src.len()` (note: the bound is strict, so
an exactly-empty suffix is also rejected, as in the source). -/
def get_bytes_from (src : List Nat) (at_ : Nat) : Except FrameError (List Nat) :=
  if at_ < src.length then .ok (src.drop at_) else .error .Incomplete

/-- Embeds `get_bytes_until_crlf` (frame.rs:282): splits at the first
CR LF, returning the bytes strictly before it and the suffix starting AT the
CR (the terminator is left inside the leftover, exactly as the source's
`(&src[..i], &src[i..])` does); `Incomplete` when no CR LF is present. -/
def get_bytes_until_crlf : List Nat → Except FrameError (List Nat × List Nat)
  | 13 :: 10 :: rest => .ok ([], 13 :: 10 :: rest)
  | c :: rest =>
    match get_bytes_until_crlf rest with
    | .ok (pre, post) => .ok (c :: pre, post)
    | .error e => .error e
  | [] => .error .Incomplete

/-- Embeds `get_decimal_until_crlf` (frame.rs:271).  It scans to the first
CR LF, then demands that the token before the terminator be longer than 3
bytes and feeds `str[1..str.len()-2]` — the token with its first byte and
last two bytes stripped — to `atoi` (the helper was evidently written for a
token that still contained its tag and terminator, but `Frame::parse` calls
it on a slice that contains neither, so short length headers such as `3` or
`-1` fail `Incomplete` and long ones are parsed with three bytes dropped). -/
def get_decimal_until_crlf (src : List Nat) : Except FrameError (Int × List Nat) :=
  match get_bytes_until_crlf src with
  | .error e => .error e
  | .ok (str, leftover) =>
    if str.length > 3 then
      match atoi_i64 ((str.drop 1).take (str.length - 3)) with
      | some res => .ok (res, leftover)
      | none => .error .InvalidInteger
    else .error .Incomplete

/-- Fuel bound used by `Frame.parse`: every recursive call of the source
consumes at least one byte of the slice, so `2 * length + 4` units of fuel
always outlast the recursion. -/
def fuelOf (src : List Nat) : Nat := 2 * src.length + 4

mutual
/-- Embeds `Frame::parse` (frame.rs:95), with an explicit fuel argument to
express the recursion (each recursive call receives a strictly shorter
slice, so any fuel of at least `2 * src.length + 4` is never exhausted; the
wrapper `Frame.parse` supplies exactly that).  Match arms follow the source
dispatch on the first byte: `+` 43, `-` 45, `:` 58, `$` 36, `*` 42. -/
def parseF : Nat → List Nat → Except FrameError (Frame × List Nat)
  | 0, _ => .error .Incomplete
  | fuel + 1, src =>
    match peek_u8_at src 0 with
    | .error e => .error e
    | .ok c =>
      if c = 43 then
        match get_bytes_from src 1 with
        | .error e => .error e
        | .ok s =>
          match get_bytes_until_crlf s with
          | .error e => .error e
          | .ok (res, leftover) => .ok (.Simple res, leftover)
      else if c = 45 then
        match get_bytes_from src 1 with
        | .error e => .error e
        | .ok s =>
          match get_bytes_until_crlf s with
          | .error e => .error e
          | .ok (res, leftover) => .ok (.Error res, leftover)
      else if c = 58 then
        match get_bytes_from src 1 with
        | .error e => .error e
        | .ok s =>
          match get_bytes_until_crlf s with
          | .error e => .error e
          | .ok (res, leftover) =>
            match atoi_i64 res with
            | some n => .ok (.Integer n, leftover)
            | none => .error .InvalidInteger
      else if c = 36 then
        -- $<decimal>\r\n<string>\r\n
        match get_bytes_from src 1 with
        | .error e => .error e
        | .ok s =>
          match get_decimal_until_crlf s with
          | .error e => .error e
          | .ok (len, leftover) =>
            if len < 0 then .ok (.Null, leftover)
            else
              -- `peek_u8_at(leftover, len)? == b'\r' && peek_u8_at(leftover, len+1)? == b'\n'`
              -- with Rust's short-circuit: the second peek only runs when the
              -- first byte is CR.
              match peek_u8_at leftover len.toNat with
              | .error e => .error e
              | .ok c1 =>
                if c1 = 13 then
                  match peek_u8_at leftover (len.toNat + 1) with
                  | .error e => .error e
                  | .ok c2 =>
                    if c2 = 10 then
                      match get_bytes_from leftover (len.toNat + 2) with
                      | .error e => .error e
                      | .ok rest => .ok (.Bulk (leftover.take len.toNat), rest)
                    else .error .BadFormat
                else .error .BadFormat
      else if c = 42 then
        match get_bytes_from src 1 with
        | .error e => .error e
        | .ok s =>
          match get_decimal_until_crlf s with
          | .error e => .error e
          | .ok (count, leftover) =>
            match parseLoopF fuel count leftover with
            | .error e => .error e
            | .ok (result, leftover2) =>
              -- `peek_u8_at(leftover, 0)? == b'\r' && peek_u8_at(leftover, 0)? == b'\r'`:
              -- the source compares index 0 against CR twice (it never checks
              -- for the LF), with short-circuit evaluation.
              match peek_u8_at leftover2 0 with
              | .error e => .error e
              | .ok c0 =>
                if c0 = 13 then
                  match peek_u8_at leftover2 0 with
                  | .error e => .error e
                  | .ok c0b =>
                    if c0b = 13 then .ok (.Array (FrameArray.from_vec result), leftover2)
                    else .error .BadFormat
                else .error .BadFormat
      else .error .BadFormat

/-- Embeds the `while count != 0 && leftover.len() != 0` element loop of the
`*` arm of `Frame::parse` (frame.rs:131): parse one sub-frame, push it onto
the `Vec<Frame>`, decrement the (i64) counter, and continue; any sub-parse
error propagates. -/
def parseLoopF : Nat → Int → List Nat → Except FrameError (List Frame × List Nat)
  | 0, _, _ => .error .Incomplete
  | fuel + 1, count, leftover =>
    if count ≠ 0 ∧ leftover ≠ [] then
      match parseF fuel leftover with
      | .error e => .error e
      | .ok (frame, newLeftover) =>
        match parseLoopF fuel (count - 1) newLeftover with
        | .error e => .error e
        | .ok (rest, finalLeftover) => .ok (frame :: rest, finalLeftover)
    else .ok ([], leftover)
end

/-- Embeds the public entry point `Frame::parse` (frame.rs:95).  On success
the source returns the parsed frame together with the leftover suffix of the
input slice; bytes consumed equal `src.length - leftover.length`. -/
def Frame.parse (src : List Nat) : Except FrameError (Frame × List Nat) :=
  parseF (fuelOf src) src

/-- Decimal digit bytes of a natural number, most significant first, with a
fuel argument (`fuel = n` suffices since the value shrinks tenfold each
step).  Mirrors what Rust's `format!` produces for a non-negative value. -/
def natDecimalAux : Nat → Nat → List Nat → List Nat
  | 0, _, acc => acc
  | _, 0, acc => acc
  | fuel + 1, n + 1, acc => natDecimalAux fuel ((n + 1) / 10) (((n + 1) % 10 + 48) :: acc)

/-- ASCII bytes of `format!("{}", n)` for a natural number. -/
def natDecimal (n : Nat) : List Nat :=
  if n = 0 then [48] else natDecimalAux n n []

/-- ASCII bytes of `format!("{}", i)` for a signed integer. -/
def intDecimal (i : Int) : List Nat :=
  if i < 0 then 45 :: natDecimal i.natAbs else natDecimal i.toNat

mutual
/-- Embeds `Frame::len` (frame.rs:148): the PAYLOAD size of a frame — byte
length for the string-like variants, decimal-digit count for `Integer`, the
constant 4 for `Null`, and the element sum for `Array` (headers and
terminators are never counted). -/
def Frame.len : Frame → Nat
  | .Simple b => b.length
  | .Error b => b.length
  | .Integer i => (intDecimal i).length
  | .Bulk b => b.length
  | .Null => 4
  | .Array xs => lenSum xs

/-- Embeds the `b.iter().map(|v| v.len()).sum()` of the `Array` arm of
`Frame::len`. -/
def lenSum : FrameArray → Nat
  | .nil => 0
  | .cons f fs => Frame.len f + lenSum fs
end

/-- Models one `result.write_u8(..)` or `result.write_all(..)` statement of
`Frame::as_bytes` (frame.rs:171).  frame.rs imports no `std::io::Write`; the
only `write_u8`/`write_all` in scope are the `tokio::io::AsyncWriteExt`
methods (tokio implements `AsyncWrite` for `Vec<u8>`).  Each statement
builds a future and immediately drops it without awaiting or polling it, so
the named bytes are never appended to `result`. -/
def dropped_write (result : List Nat) (_named : List Nat) : List Nat := result

mutual
/-- Embeds `Frame::as_bytes` (frame.rs:171) as the source executes: each
branch allocates `result`, issues a sequence of unawaited `write_*` calls
(see `dropped_write`), and returns `result` — which is therefore always the
empty byte string.  Argument expressions of the dropped calls (such as the
recursive `v.as_bytes()` in the `Array` arm) are still evaluated. -/
def Frame.as_bytes (f : Frame) : List Nat :=
  match f with
  | .Simple b =>
    let result : List Nat := []
    let result := dropped_write result [43]
    let result := dropped_write result b
    let result := dropped_write result [13]
    let result := dropped_write result [10]
    result
  | .Error b =>
    let result : List Nat := []
    let result := dropped_write result [45]
    let result := dropped_write result b
    let result := dropped_write result [13]
    let result := dropped_write result [10]
    result
  | .Integer i =>
    let result : List Nat := []
    let result := dropped_write result [58]
    let result := dropped_write result (intDecimal i)
    let result := dropped_write result [13]
    let result := dropped_write result [10]
    result
  | .Bulk b =>
    let result : List Nat := []
    let result := dropped_write result [36]
    let result := dropped_write result (natDecimal b.length)
    let result := dropped_write result [13]
    let result := dropped_write result [10]
    let result := dropped_write result b
    let result := dropped_write result [13]
    let result := dropped_write result [10]
    result
  | .Null =>
    let result : List Nat := []
    let result := dropped_write result [36]
    let result := dropped_write result [45]
    let result := dropped_write result [49]
    let result := dropped_write result [13]
    let result := dropped_write result [10]
    result
  | .Array xs =>
    let result : List Nat := []
    let result := dropped_write result [42]
    let result := dropped_write result (natDecimal xs.len)
    let result := asBytesFold result xs
    let result := dropped_write result [13]
    let result := dropped_write result [10]
    result

/-- Embeds the `for v in b.iter() { result.write_all(&v.as_bytes()); }` loop
of the `Array` arm of `Frame::as_bytes`: each iteration evaluates
`v.as_bytes()` and drops the resulting write future. -/
def asBytesFold (result : List Nat) : FrameArray → List Nat
  | .nil => result
  | .cons v vs => asBytesFold (dropped_write result (Frame.as_bytes v)) vs
end

mutual
/-- Reading of `Frame::as_bytes` (frame.rs:171) in which every `write_*`
call is taken to append its bytes to `result` (i.e. as if each future were
awaited): the bytes the statements name, in source order.  Note the `Array`
arm: `*`, the decimal element count, then each element's encoding, then one
CR LF — there is NO terminator between the count and the first element. -/
def as_bytes_sync : Frame → List Nat
  | .Simple b => 43 :: (b ++ [13, 10])
  | .Error b => 45 :: (b ++ [13, 10])
  | .Integer i => 58 :: (intDecimal i ++ [13, 10])
  | .Bulk b => 36 :: (natDecimal b.length ++ [13, 10] ++ b ++ [13, 10])
  | .Null => [36, 45, 49, 13, 10]
  | .Array xs => 42 :: (natDecimal xs.len ++ syncJoin xs ++ [13, 10])

/-- Concatenation of the element encodings in the `Array` arm of
`as_bytes_sync`. -/
def syncJoin : FrameArray → List Nat
  | .nil => []
  | .cons v vs => as_bytes_sync v ++ syncJoin vs
end

mutual
/-- Modelled from the spec: the exact wire format of §6 / §4.1 `encode`
("Simple string: `+<bytes>\r\n` ... Bulk string: `$<length>\r\n<length
bytes>\r\n`; Null is `$-1\r\n`; Array: `*<count>\r\n` followed by `<count>`
encoded elements concatenated, no extra separator").  This is the notion of
"validly encoded frame" that the spec's round-trip and prefix properties
range over. -/
def wireBytes : Frame → List Nat
  | .Simple b => 43 :: (b ++ [13, 10])
  | .Error b => 45 :: (b ++ [13, 10])
  | .Integer i => 58 :: (intDecimal i ++ [13, 10])
  | .Bulk b => 36 :: (natDecimal b.length ++ [13, 10] ++ b ++ [13, 10])
  | .Null => [36, 45, 49, 13, 10]
  | .Array xs => 42 :: (natDecimal xs.len ++ [13, 10] ++ wireJoin xs)

/-- Concatenation of the element encodings in the `Array` arm of
`wireBytes`. -/
def wireJoin : FrameArray → List Nat
  | .nil => []
  | .cons v vs => wireBytes v ++ wireJoin vs
end

/-- Embeds `impl PartialEq<str> for Frame` and `impl PartialEq<String> for
Frame` (frame.rs:20): `self.as_bytes() == other`, a byte-wise comparison of
the result of `Frame::as_bytes` with the string's bytes. -/
def frame_eq_str (f : Frame) (s : List Nat) : Bool := Frame.as_bytes f == s

/-- Outcome of `Connection::read_frame` (connection.rs:56): a decoded frame
together with the new buffer contents, `Ok(None)`, the "connection reset by
peer" error, or a propagated `FrameError`. -/
inductive ReadFrameResult where
  | ok_frame (f : Frame) (buffer : List Nat)
  | ok_none (buffer : List Nat)
  | err_reset
  | err_frame (e : FrameError)
deriving Repr, DecidableEq

/-- Embeds `Connection::read_frame` (connection.rs:56).  `buffer` is the
accumulated read buffer; `incoming` is what one `read_buf` call on the
stream would append (`[]` modelling end of stream, i.e. a zero-byte read).
Although the body is a `loop`, every arm of its match returns, so the body
runs at most once and one potential read suffices to model it:
`Ok((frame, _))` advances the buffer by `frame.len()` (the leftover returned
by the parser is discarded) and returns the frame; `Err(Incomplete)` reads —
on end of stream an empty buffer is a clean close and a non-empty buffer is
a reset, and after a SUCCESSFUL read the code returns `Ok(None)` rather than
retrying the parse; any other error propagates. -/
def read_frame (buffer : List Nat) (incoming : List Nat) : ReadFrameResult :=
  match Frame.parse buffer with
  | .ok (frame, _) => .ok_frame frame (buffer.drop (Frame.len frame))
  | .error .Incomplete =>
    if incoming = [] then
      if buffer = [] then .ok_none buffer else .err_reset
    else .ok_none (buffer ++ incoming)
  | .error e => .err_frame e

/-- Write half of a `Connection` (connection.rs:21): the `BufWriter`'s
buffered bytes and the bytes already flushed to the underlying transport. -/
structure WriteConn where
  wbuf : List Nat
  transport : List Nat
deriving Repr, DecidableEq

/-- Embeds `Connection::write_frame` (connection.rs:111).  The statement
`self.stream.write_all(&frame.as_bytes());` has no `.await`: it evaluates
`frame.as_bytes()`, builds the `write_all` future and drops it unpolled, so
nothing is appended to the `BufWriter` (see `dropped_write`).  The awaited
`self.stream.flush()` then moves whatever the writer already buffered to the
transport. -/
def write_frame (conn : WriteConn) (frame : Frame) : WriteConn :=
  let wbuf := dropped_write conn.wbuf (Frame.as_bytes frame)
  { wbuf := [], transport := conn.transport ++ wbuf }


/-- C1: the round-trip property `decode(encode(f)) == (f, len(encode(f)))`
FAILS on the code.  `Frame::as_bytes` of `Integer 1` produces no bytes at
all (its write futures are dropped), and parsing the resulting empty buffer
fails `Incomplete`; moreover, even reading the writes as if they were
performed (`as_bytes_sync`), the encoding of `Bulk "foo"` fails to re-parse
(`Incomplete`), and the encoding of `Integer 1` re-parses with a non-empty
leftover `\r\n`, i.e. with consumed length 2 rather than the encoding's
full length 4. -/
theorem roundtrip_decode_encode_fails :
    Frame.as_bytes (.Integer 1) = [] ∧
    Frame.parse (Frame.as_bytes (.Integer 1)) = .error .Incomplete ∧
    as_bytes_sync (.Bulk [102, 111, 111]) = [36, 51, 13, 10, 102, 111, 111, 13, 10] ∧
    Frame.parse (as_bytes_sync (.Bulk [102, 111, 111])) = .error .Incomplete ∧
    Frame.parse (as_bytes_sync (.Integer 1)) = .ok (.Integer 1, [13, 10]) ∧
    (as_bytes_sync (.Integer 1)).length = 4 ∧ [13, 10] ≠ ([] : List Nat) :=
  ⟨rfl, rfl, rfl, rfl, rfl, rfl, by decide⟩

/-- C2: on the buffer `+OK\r\n` the successful-decode path of `read_frame`
advances the buffer by `Frame::len` — the PAYLOAD length 2 — leaving
`K\r\n` buffered, whereas the wire-format byte length of the frame is 5
(and the parser itself consumed 3 bytes, leaving `\r\n`): the buffer is NOT
advanced by the consumed wire-format length the claim specifies. -/
theorem read_frame_advance_not_wire_length :
    read_frame [43, 79, 75, 13, 10] [] = .ok_frame (.Simple [79, 75]) [75, 13, 10] ∧
    Frame.len (.Simple [79, 75]) = 2 ∧
    (wireBytes (.Simple [79, 75])).length = 5 ∧
    Frame.parse [43, 79, 75, 13, 10] = .ok (.Simple [79, 75], [13, 10]) ∧
    [75, 13, 10] ≠ List.drop 5 [43, 79, 75, 13, 10] :=
  ⟨rfl, rfl, rfl, rfl, by decide⟩

/-- C3: decoding `*2\r\n$3\r\nfoo\r\n:1\r\n` (17 bytes) does NOT yield an
Array of Bulk("foo") and Integer(1) — it fails `Incomplete`, because the
count token `2` is shorter than the 4 bytes `get_decimal_until_crlf`
demands before the first CR LF; a zero count `*0\r\n` likewise fails
`Incomplete` instead of yielding an empty array. -/
theorem array_decode_fails_incomplete :
    Frame.parse [42, 50, 13, 10, 36, 51, 13, 10, 102, 111, 111, 13, 10, 58, 49, 13, 10]
      = .error .Incomplete ∧
    Frame.parse [42, 48, 13, 10] = .error .Incomplete :=
  ⟨rfl, rfl⟩

/-- C4: the `$` arm does not behave as claimed: `$-1\r\n` fails `Incomplete`
(instead of yielding Null), `$0\r\n\r\n` fails `Incomplete` (instead of an
empty Bulk), and `$3\r\nfooXX` fails `Incomplete` (instead of `BadFormat`)
— in each case the length token (`-1`, `0`, `3`) is shorter than the 4
bytes `get_decimal_until_crlf` demands before the first CR LF. -/
theorem bulk_decode_fails_incomplete :
    Frame.parse [36, 45, 49, 13, 10] = .error .Incomplete ∧
    Frame.parse [36, 48, 13, 10, 13, 10] = .error .Incomplete ∧
    Frame.parse [36, 51, 13, 10, 102, 111, 111, 88, 88] = .error .Incomplete :=
  ⟨rfl, rfl, rfl⟩

/-- C5: `write_frame` does NOT commit the frame's encoding to the
transport: on a fresh connection, writing `Simple "OK"` leaves the
transport empty (the un-awaited `write_all` future is dropped, and
`as_bytes` names no bytes anyway), although the frame's wire encoding is
the non-empty `+OK\r\n`. -/
theorem write_frame_commits_nothing :
    write_frame { wbuf := [], transport := [] } (.Simple [79, 75])
      = { wbuf := [], transport := [] } ∧
    wireBytes (.Simple [79, 75]) ≠ [] :=
  ⟨rfl, by decide⟩

/-- C6: `read_frame` returns no-frame WITHOUT a clean close: with an empty
buffer and a stream that delivers the complete frame `+OK\r\n` in one
read, the code appends the bytes and returns `Ok(None)` instead of retrying
the decode — although the bytes received parse successfully, as the second
conjunct shows a retry would have found. -/
theorem read_frame_none_without_clean_close :
    read_frame [] [43, 79, 75, 13, 10] = .ok_none [43, 79, 75, 13, 10] ∧
    Frame.parse [43, 79, 75, 13, 10] = .ok (.Simple [79, 75], [13, 10]) :=
  ⟨rfl, rfl⟩

/-- C7: prefix monotonicity FAILS on the code.  Decoding the complete valid
wire encoding of `Bulk "foo"` (`$3\r\nfoo\r\n`) yields `Incomplete` rather
than succeeding; and the 8-byte proper prefix `$1000\r\nf` of the valid
encoding of a 1000-byte bulk frame decodes SUCCESSFULLY (to an empty Bulk,
because `get_decimal_until_crlf` drops three digits of the length token)
rather than yielding `Incomplete`. -/
theorem prefix_monotonicity_fails :
    wireBytes (.Bulk [102, 111, 111]) = [36, 51, 13, 10, 102, 111, 111, 13, 10] ∧
    Frame.parse (wireBytes (.Bulk [102, 111, 111])) = .error .Incomplete ∧
    List.take 8 (wireBytes (.Bulk (List.replicate 1000 102)))
      = [36, 49, 48, 48, 48, 13, 10, 102] ∧
    8 < (wireBytes (.Bulk (List.replicate 1000 102))).length ∧
    Frame.parse (List.take 8 (wireBytes (.Bulk (List.replicate 1000 102))))
      = .ok (.Bulk [], [102]) :=
  ⟨rfl, rfl, rfl, by decide, rfl⟩

/-- C8: a `:` frame whose token between the tag and the CR LF terminator is
rejected by `atoi::<i64>` fails `InvalidInteger`: in general (for any tail
whose terminator scan succeeds but whose token `atoi` rejects), and in
particular for `:12x\r\n`. -/
theorem colon_invalid_integer :
    (∀ (fuel : Nat) (tail pre post : List Nat),
      get_bytes_until_crlf tail = .ok (pre, post) →
      atoi_i64 pre = none →
      parseF (fuel + 1) (58 :: tail) = .error .InvalidInteger) ∧
    Frame.parse [58, 49, 50, 120, 13, 10] = .error .InvalidInteger := by
  refine ⟨?_, rfl⟩
  intro fuel tail pre post hc ha
  cases tail with
  | nil => simp [get_bytes_until_crlf] at hc
  | cons t ts =>
    have h0 : peek_u8_at (58 :: t :: ts) 0 = .ok 58 := rfl
    have hlen : 1 < (58 :: t :: ts).length := by
      simp only [List.length_cons]
      omega
    have h1 : get_bytes_from (58 :: t :: ts) 1 = .ok (t :: ts) := by
      simp [get_bytes_from, hlen]
    simp [parseF, h0, h1, hc, ha]

/-- Witness for C8: the general arm of `colon_invalid_integer` applied to
the concrete input `:12x\r\n` (with the fuel `Frame.parse` itself uses). -/
theorem colon_invalid_integer_witness :
    parseF 16 [58, 49, 50, 120, 13, 10] = .error .InvalidInteger :=
  colon_invalid_integer.1 15 [49, 50, 120, 13, 10] [49, 50, 120] [13, 10] rfl rfl

/-- C9: `as_bytes` on an Array does NOT produce
`*<count>\r\n<element encodings>`: executed as written it produces no bytes
at all, and even reading its write statements as performed it would produce
`*1:1\r\n\r\n` for `Array [Integer 1]` — no CR LF after the count and one
spurious CR LF after the last element — instead of the claimed
`*1\r\n:1\r\n`. -/
theorem array_encoding_not_wire_format :
    Frame.as_bytes (.Array (.from_vec [.Integer 1])) = [] ∧
    as_bytes_sync (.Array (.from_vec [.Integer 1])) = [42, 49, 58, 49, 13, 10, 13, 10] ∧
    wireBytes (.Array (.from_vec [.Integer 1])) = [42, 49, 13, 10, 58, 49, 13, 10] ∧
    Frame.as_bytes (.Array (.from_vec [.Integer 1]))
      ≠ wireBytes (.Array (.from_vec [.Integer 1])) ∧
    as_bytes_sync (.Array (.from_vec [.Integer 1]))
      ≠ wireBytes (.Array (.from_vec [.Integer 1])) :=
  ⟨rfl, rfl, rfl, by decide, by decide⟩

/-- C10: the `PartialEq<str>`/`PartialEq<String>` impls compare
`self.as_bytes()` — which is always the empty byte string — with the other
side's bytes, so `Bulk "foo"` is NOT equal to its wire form
`$3\r\nfoo\r\n` (the claim says it is), and `Bulk ""` IS equal to `""` (the
claim says `Bulk(s) == s` is false for every `s`). -/
theorem frame_eq_str_compares_empty :
    frame_eq_str (.Bulk [102, 111, 111]) [36, 51, 13, 10, 102, 111, 111, 13, 10] = false ∧
    frame_eq_str (.Bulk [102, 111, 111]) [102, 111, 111] = false ∧
    frame_eq_str (.Bulk []) [] = true :=
  ⟨rfl, rfl, rfl⟩
